import Mathlib

/-!
Shallow embedding of the governance/reliability core of the Virtual-manager
repository: `backend/app/agents/platform_enterprise.py` (class
`PlatformEnterpriseAgent`) over the SQLAlchemy models of
`backend/app/models.py`.

Modelling conventions:
* The SQLAlchemy session/database is an explicit `DB` record of table rows
  (lists, in insertion order).  `query(...).filter(col == x).first()` becomes
  `List.find?`; mutating the ORM object returned by `first()` becomes
  `updateFirst` (replace the first matching row).
* `datetime.utcnow()` is an explicit `now : Nat` argument; `timedelta(hours=h)`
  is `h * 3600`.
* `uuid.uuid4()` for ids that are returned to the caller or re-queried is an
  explicit `freshId : String` argument.  Audit-log rows get a uuid id that is
  never read anywhere in the subsystem, so the id column is dropped from the
  audit-entry model.
* Text columns that hold `json.dumps` output are modelled as holding the
  (decoded) JSON value itself, of type `Json`: every write goes through
  `json.dumps` and every read through `json.loads`, which are mutually inverse.
  Python truthiness tests on such a column (`if not state.previous_value`,
  `if existing.result`) are modelled as presence tests, because `json.dumps`
  always returns a nonempty string.
* `db.add` is an immediate append; `db.commit` is a no-op except where a
  database constraint can reject the transaction: the single place in the
  embedded code that inserts a row into a table with a relevant UNIQUE
  constraint is the lock creation of `ensure_idempotent`
  (`operation_locks.operation_id` is declared `unique=True` in
  `backend/app/models.py` and the DDL is emitted by
  `Base.metadata.create_all`), so that insert is modelled as failing when a
  row with the same `operation_id` already exists, leaving the DB unchanged
  (the session is rolled back).
-/

namespace VirtualManager

/-- JSON values, the domain of every `json.dumps`/`json.loads` text column. -/
inductive Json where
  | null : Json
  | bool (b : Bool) : Json
  | num (n : Int) : Json
  | str (s : String) : Json
  | arr (elems : List Json) : Json
  | obj (fields : List (String × Json)) : Json

/-- `UserRole` of `backend/app/models.py`. -/
inductive UserRole where
  | admin | manager | contributor | viewer
deriving DecidableEq

/-- The `.value` of a `UserRole` enum member. -/
def UserRole.value : UserRole → String
  | .admin => "admin"
  | .manager => "manager"
  | .contributor => "contributor"
  | .viewer => "viewer"

/-- `ApprovalStatus` of `backend/app/models.py`. -/
inductive ApprovalStatus where
  | pending | approved | rejected | expired
deriving DecidableEq

/-- The `.value` of an `ApprovalStatus` enum member. -/
def ApprovalStatus.value : ApprovalStatus → String
  | .pending => "pending"
  | .approved => "approved"
  | .rejected => "rejected"
  | .expired => "expired"

/-- `ActionSensitivity` of `backend/app/models.py`. -/
inductive ActionSensitivity where
  | low | medium | high | critical
deriving DecidableEq

/-- The `.value` of an `ActionSensitivity` enum member. -/
def ActionSensitivity.value : ActionSensitivity → String
  | .low => "low"
  | .medium => "medium"
  | .high => "high"
  | .critical => "critical"

/-- `OperationStatus` of `backend/app/models.py`. -/
inductive OperationStatus where
  | pending | inProgress | completed | failed
deriving DecidableEq

/-- A row of the `users` table (the columns this subsystem reads or writes).
`permissions` is the JSON-decoded content of the nullable Text column. -/
structure User where
  id : String
  email : String
  name : String
  role : UserRole
  permissions : Option (List String)
  isActive : Bool

/-- A row of the `audit_logs` table (uuid id column omitted, never read). -/
structure AuditEntry where
  actorId : String
  actorName : Option String := none
  actorRole : Option String := none
  action : String
  resourceType : String
  resourceId : Option String := none
  resourceName : Option String := none
  changes : Option Json := none
  metadata : Option Json := none
  reason : Option String := none
  outcome : String
  errorMessage : Option String := none
  ipAddress : Option String := none

/-- A row of the `approval_requests` table.  `expires_at` is nullable in the
schema but always set by `create_approval_request`, the only writer. -/
structure ApprovalRequest where
  id : String
  actionType : String
  sensitivity : ActionSensitivity
  resourceType : Option String
  resourceId : Option String
  actionSummary : String
  impactSummary : Option String
  isReversible : Bool
  requesterId : String
  requesterName : Option String
  requestedAt : Nat
  status : ApprovalStatus
  expiresAt : Nat
  resolvedBy : Option String := none
  resolvedAt : Option Nat := none
  resolutionReason : Option String := none

/-- A row of the `system_states` table. -/
structure SystemState where
  id : String
  key : String
  value : Json
  version : Nat
  previousValue : Option Json
  changedBy : Option String
  changeReason : Option String
  isRollback : Bool := false
  rolledBackFromVersion : Option Nat := none
  updatedAt : Nat

/-- A row of the `operation_locks` table. -/
structure OperationLock where
  id : String
  operationId : String
  operationType : String
  status : OperationStatus
  result : Option Json := none
  expiresAt : Nat
  completedAt : Option Nat := none
  actorId : String

/-- The database visible to `PlatformEnterpriseAgent`, one list per table. -/
structure DB where
  users : List User
  auditLogs : List AuditEntry
  approvals : List ApprovalRequest
  states : List SystemState
  locks : List OperationLock

def emptyDB : DB := ⟨[], [], [], [], []⟩

/-- Mutating the ORM object returned by `.filter(p).first()` in place:
replace the first row satisfying `p` by its update, keep the rest. -/
def updateFirst (p : α → Bool) (f : α → α) : List α → List α
  | [] => []
  | x :: xs => if p x then f x :: xs else x :: updateFirst p f xs

/-- `PlatformEnterpriseAgent._log_audit`: create an audit row
(`self.db.add(log)`). -/
def logAudit (db : DB) (entry : AuditEntry) : DB :=
  { db with auditLogs := db.auditLogs ++ [entry] }

/-- `PlatformEnterpriseAgent.ROLE_PERMISSIONS`, the static role permission
matrix.  All four roles are keys, so the `.get(role, [])` fallback is dead. -/
def rolePermissions : UserRole → List String
  | .admin => ["*"]
  | .manager =>
      ["read:*", "create:*", "update:*",
       "approve:leave", "approve:assignment",
       "manage:team", "view:reports"]
  | .contributor =>
      ["read:*", "create:task", "update:own_task",
       "create:comment", "update:own_profile"]
  | .viewer =>
      ["read:project", "read:task", "read:report"]

/-- `permission.split(":")[0] if ":" in permission else permission`: the first
piece of `split(":")` is the prefix before the first `:` (and the whole string
when there is no `:`). -/
def permCategory (permission : String) : String :=
  if permission.data.contains ':' then
    String.mk (permission.data.takeWhile (fun c => c != ':'))
  else permission

/-- The dict returned by `check_permission`: `allowed` is always present, the
other keys only on some paths (absent keys are `none`). -/
structure PermCheck where
  allowed : Bool
  role : Option String := none
  via : Option String := none
  reason : Option String := none
  userRole : Option String := none

/-- `PlatformEnterpriseAgent.check_permission` (platform_enterprise.py
lines 88-158). -/
def checkPermission (db : DB) (userId : String) (permission : String) :
    PermCheck × DB :=
  match db.users.find? (fun u => u.id == userId) with
  | none =>
      let db := logAudit db
        { actorId := userId, action := "permission_check",
          resourceType := "permission", outcome := "denied",
          reason := some "User not found" }
      ({ allowed := false, reason := some "User not found" }, db)
  | some user =>
    if !user.isActive then
      let db := logAudit db
        { actorId := userId, action := "permission_check",
          resourceType := "permission", outcome := "denied",
          reason := some "User account inactive" }
      ({ allowed := false, reason := some "Account inactive" }, db)
    else
      let rolePerms := rolePermissions user.role
      if rolePerms.contains "*" then
        ({ allowed := true, role := some user.role.value }, db)
      else if rolePerms.contains permission then
        ({ allowed := true, role := some user.role.value }, db)
      else if rolePerms.contains (permCategory permission ++ ":*") then
        ({ allowed := true, role := some user.role.value }, db)
      else
        let userPerms := (user.permissions.getD [])
        if userPerms.contains permission then
          ({ allowed := true, role := some user.role.value,
             via := some "user_permission" }, db)
        else
          let db := logAudit db
            { actorId := userId, actorName := some user.name,
              actorRole := some user.role.value,
              action := "permission_check", resourceType := "permission",
              resourceId := some permission, outcome := "denied",
              reason := some ("Permission '" ++ permission ++
                "' not granted to role '" ++ user.role.value ++ "'") }
          ({ allowed := false,
             reason := some ("Permission '" ++ permission ++ "' not granted"),
             userRole := some user.role.value }, db)

/-- `PlatformEnterpriseAgent.SENSITIVE_ACTIONS`: the static
`action_type → sensitivity` table. -/
def sensitiveActions : List (String × ActionSensitivity) :=
  [("delete_data", .critical),
   ("send_external_communication", .high),
   ("hire_decision", .critical),
   ("reject_candidate", .high),
   ("permission_change", .critical),
   ("bulk_update", .high),
   ("export_data", .medium),
   ("system_config_change", .critical)]

/-- The dict returned by `create_approval_request`. -/
structure CreateApprovalResult where
  approvalId : String
  actionType : String
  sensitivity : String
  status : String
  expiresAt : Nat
  message : String

/-- `PlatformEnterpriseAgent.create_approval_request` (lines 234-289).
Unsupplied Python defaults are passed explicitly by callers below
(`isReversible = true`, `expiresInHours = 48`). -/
def createApprovalRequest (db : DB) (actionType resourceType resourceId : String)
    (actionSummary requesterId : String) (impactSummary : Option String)
    (isReversible : Bool) (expiresInHours : Nat) (freshId : String) (now : Nat) :
    CreateApprovalResult × DB :=
  let sensitivity := (sensitiveActions.lookup actionType).getD ActionSensitivity.medium
  let requester := db.users.find? (fun u => u.id == requesterId)
  let approval : ApprovalRequest :=
    { id := freshId, actionType := actionType, sensitivity := sensitivity,
      resourceType := some resourceType, resourceId := some resourceId,
      actionSummary := actionSummary, impactSummary := impactSummary,
      isReversible := isReversible, requesterId := requesterId,
      requesterName := some (match requester with
        | some u => u.name
        | none => "Unknown"),
      requestedAt := now, status := .pending,
      expiresAt := now + expiresInHours * 3600 }
  let db := { db with approvals := db.approvals ++ [approval] }
  let db := logAudit db
    { actorId := requesterId, action := "create_approval_request",
      resourceType := resourceType, resourceId := some resourceId,
      metadata := some (Json.obj
        [("action_type", .str actionType),
         ("sensitivity", .str sensitivity.value)]),
      outcome := "success" }
  ({ approvalId := freshId, actionType := actionType,
     sensitivity := sensitivity.value, status := "pending",
     expiresAt := approval.expiresAt,
     message := "Action requires approval before execution" }, db)

/-- The dict returned by `process_approval`: either `{"error": ...}` or the
success dict. -/
inductive ProcessApprovalResult where
  | err (message : String)
  | ok (approvalId : String) (status : String) (resolvedBy : String)
       (actionType : String) (canProceed : Bool)
deriving DecidableEq

/-- `PlatformEnterpriseAgent.process_approval` (lines 291-348). -/
def processApproval (db : DB) (approvalId approverId : String)
    (approved : Bool) (reason : String) (now : Nat) :
    ProcessApprovalResult × DB :=
  match db.approvals.find? (fun a => a.id == approvalId) with
  | none => (.err "Approval request not found", db)
  | some approval =>
    if approval.status != .pending then
      (.err ("Approval already " ++ approval.status.value), db)
    else if approval.expiresAt < now then
      let approvals := updateFirst (fun a => a.id == approvalId)
        (fun a => { a with status := .expired }) db.approvals
      let db := { db with approvals := approvals }
      (.err "Approval request has expired", db)
    else
      let permDb := checkPermission db approverId ("approve:" ++ approval.actionType)
      let db := permDb.2
      if !permDb.1.allowed then
        (.err "Not authorized to approve this action", db)
      else
        let approver := db.users.find? (fun u => u.id == approverId)
        let newStatus : ApprovalStatus := if approved then .approved else .rejected
        let resolve : ApprovalRequest → ApprovalRequest := fun a =>
          { a with status := newStatus, resolvedBy := some approverId,
                   resolvedAt := some now, resolutionReason := some reason }
        let approvals := updateFirst (fun a => a.id == approvalId) resolve db.approvals
        let db := { db with approvals := approvals }
        let db := logAudit db
          { actorId := approverId,
            actorName := (match approver with
              | some u => some u.name
              | none => none),
            action := if approved then "approve" else "reject",
            resourceType := "approval_request", resourceId := some approvalId,
            reason := some reason, outcome := "success" }
        (.ok approvalId newStatus.value
          (match approver with
            | some u => u.name
            | none => approverId)
          approval.actionType approved, db)

/-- `role_hierarchy` of `update_user_role` (line 194). -/
def roleHierarchy : List String := ["viewer", "contributor", "manager", "admin"]

/-- The dict returned by `update_user_role`: an error dict, the approval dict
of the escalation path, or the completed dict. -/
inductive UpdateRoleResult where
  | err (message : String)
  | approvalPending (r : CreateApprovalResult)
  | completed (userId oldRole newRole : String)

/-- `PlatformEnterpriseAgent.update_user_role` (lines 177-230).  `new_role` is
a role value string in Python (`UserRole(new_role)` rejects anything else), so
it is taken as a `UserRole` and its `.value` used where the code uses the
string. -/
def updateUserRole (db : DB) (userId : String) (newRole : UserRole)
    (changedBy reason : String) (freshId : String) (now : Nat) :
    UpdateRoleResult × DB :=
  match db.users.find? (fun u => u.id == userId) with
  | none => (.err "User not found", db)
  | some user =>
    let oldRole := user.role.value
    let oldIdx := roleHierarchy.indexOf oldRole
    let newIdx := roleHierarchy.indexOf newRole.value
    if oldIdx < newIdx then
      let rdb := createApprovalRequest db "permission_change" "user" userId
        ("Escalate " ++ user.name ++ " from " ++ oldRole ++ " to " ++ newRole.value)
        changedBy
        (some ("User will gain " ++ newRole.value ++ " permissions"))
        true 48 freshId now
      (.approvalPending rdb.1, rdb.2)
    else
      let users := updateFirst (fun u => u.id == userId)
        (fun u => { u with role := newRole }) db.users
      let db := { db with users := users }
      let db := logAudit db
        { actorId := changedBy, action := "update_role",
          resourceType := "user", resourceId := some userId,
          resourceName := some user.name,
          changes := some (Json.obj
            [("role", Json.obj
              [("from", .str oldRole), ("to", .str newRole.value)])]),
          reason := some reason, outcome := "success" }
      (.completed userId oldRole newRole.value, db)

/-- The dict returned by `ensure_idempotent`: one constructor per dict shape.
`duplicateCompleted` and `duplicateInProgress` carry `is_duplicate: True`,
`proceed` carries `is_duplicate: False`. -/
inductive EnsureResult where
  | duplicateCompleted (originalResult : Option Json) (completedAt : Option Nat)
  | duplicateInProgress
  | proceed (lockId : String) (operationId : String)

/-- The `is_duplicate` key of the dict returned by `ensure_idempotent`. -/
def EnsureResult.isDuplicate : EnsureResult → Bool
  | .proceed _ _ => false
  | _ => true

/-- `self.db.add(lock); self.db.commit()` of `ensure_idempotent` under the
UNIQUE constraint on `operation_locks.operation_id` (models.py line 926): the
commit raises `IntegrityError` and rolls the session back when a row with the
same `operation_id` is already in the table. -/
def dbCommitInsertLock (db : DB) (lock : OperationLock) : Except String DB :=
  if db.locks.any (fun l => l.operationId == lock.operationId) then
    .error "UNIQUE constraint failed: operation_locks.operation_id"
  else
    .ok { db with locks := db.locks ++ [lock] }

/-- `PlatformEnterpriseAgent.ensure_idempotent` (lines 471-517).  The
`.error` outcome is the `IntegrityError` the commit of the lock insert raises
when a lock row with the same `operation_id` already exists (possible when the
existing lock is neither COMPLETED nor IN_PROGRESS, so the code falls through
to the insert). -/
def ensureIdempotent (db : DB) (operationId operationType actorId : String)
    (freshId : String) (now : Nat) : Except String (EnsureResult × DB) :=
  let existing := db.locks.find? (fun l => l.operationId == operationId)
  let createLock : Except String (EnsureResult × DB) :=
    let lock : OperationLock :=
      { id := freshId, operationId := operationId,
        operationType := operationType, status := .inProgress,
        actorId := actorId, expiresAt := now + 1 * 3600 }
    match dbCommitInsertLock db lock with
    | .ok db2 => .ok (.proceed lock.id operationId, db2)
    | .error e => .error e
  match existing with
  | some l =>
    if l.status == .completed then
      .ok (.duplicateCompleted
        (match l.result with
          | some r => some r
          | none => none)
        l.completedAt, db)
    else if l.status == .inProgress then
      .ok (.duplicateInProgress, db)
    else
      createLock
  | none => createLock

/-- `PlatformEnterpriseAgent.complete_operation` (lines 519-534). -/
def completeOperation (db : DB) (operationId : String) (result : Json)
    (success : Bool) (now : Nat) : DB :=
  match db.locks.find? (fun l => l.operationId == operationId) with
  | none => db
  | some _ =>
    let finish : OperationLock → OperationLock := fun l =>
      { l with status := if success then .completed else .failed,
               result := some result, completedAt := some now }
    { db with locks := updateFirst (fun l => l.operationId == operationId) finish db.locks }

/-- The dict returned by `save_state`. -/
structure SaveStateResult where
  key : String
  version : Nat
  previousVersion : Nat
  status : String

/-- `PlatformEnterpriseAgent.save_state` (lines 593-651). -/
def saveState (db : DB) (key : String) (value : Json) (changedBy : String)
    (reason : Option String) (freshId : String) (now : Nat) :
    SaveStateResult × DB :=
  match db.states.find? (fun s => s.key == key) with
  | some existing =>
    let save : SystemState → SystemState := fun s =>
      { s with previousValue := some s.value, value := value,
               version := s.version + 1, changedBy := some changedBy,
               changeReason := reason, isRollback := false, updatedAt := now }
    let db := { db with states := updateFirst (fun s => s.key == key) save db.states }
    let db := logAudit db
      { actorId := changedBy, action := "save_state",
        resourceType := "system_state", resourceId := some key,
        changes := some (Json.obj [("version", .num (existing.version + 1))]),
        reason := reason, outcome := "success" }
    ({ key := key, version := existing.version + 1,
       previousVersion := existing.version, status := "saved" }, db)
  | none =>
    let st : SystemState :=
      { id := freshId, key := key, value := value, version := 1,
        previousValue := none, changedBy := some changedBy,
        changeReason := reason, updatedAt := now }
    let db := { db with states := db.states ++ [st] }
    let db := logAudit db
      { actorId := changedBy, action := "save_state",
        resourceType := "system_state", resourceId := some key,
        changes := some (Json.obj [("version", .num 1)]),
        reason := reason, outcome := "success" }
    ({ key := key, version := 1, previousVersion := 0, status := "saved" }, db)

/-- The dict returned by `rollback_state`. -/
inductive RollbackResult where
  | err (message : String)
  | ok (key : String) (rolledBackFromVersion : Nat) (newVersion : Nat)

/-- `PlatformEnterpriseAgent.rollback_state` (lines 653-703).  The Python
guard `if not state.previous_value` tests truthiness of the stored
`json.dumps` text, which is nonempty whenever present, so it is a presence
test.  The schema's `onupdate=datetime.utcnow` on `updated_at` fires on the
commit of the row update. -/
def rollbackState (db : DB) (key rolledBackBy reason : String) (now : Nat) :
    RollbackResult × DB :=
  match db.states.find? (fun s => s.key == key) with
  | none => (.err "State not found", db)
  | some state =>
    match state.previousValue with
    | none => (.err "No previous version to rollback to", db)
    | some _ =>
      let currentVersion := state.version
      let swap : SystemState → SystemState := fun s =>
        { s with value := s.previousValue.getD s.value,
                 previousValue := some s.value, version := s.version + 1,
                 isRollback := true,
                 rolledBackFromVersion := some currentVersion,
                 changedBy := some rolledBackBy, changeReason := some reason,
                 updatedAt := now }
      let db := { db with states := updateFirst (fun s => s.key == key) swap db.states }
      let db := logAudit db
        { actorId := rolledBackBy, action := "rollback_state",
          resourceType := "system_state", resourceId := some key,
          changes := some (Json.obj
            [("rolled_back_from", .num currentVersion),
             ("to_version", .num (currentVersion + 1))]),
          reason := some reason, outcome := "success" }
      (.ok key currentVersion (currentVersion + 1), db)

/-- The dict returned by `get_state`. -/
inductive GetStateResult where
  | err (message : String)
  | ok (key : String) (value : Json) (version : Nat) (updatedAt : Nat)

/-- `PlatformEnterpriseAgent.get_state` (lines 705-717). -/
def getState (db : DB) (key : String) : GetStateResult :=
  match db.states.find? (fun s => s.key == key) with
  | none => .err "State not found"
  | some state => .ok key state.value state.version state.updatedAt

/-- `PlatformEnterpriseAgent._is_fatal_error`'s `fatal_messages` list
(lines 581-587). -/
def fatalMessages : List String :=
  ["permission denied", "unauthorized", "not found", "invalid", "forbidden"]

/-- Python's `pat in s` on character lists: `pat` occurs contiguously in `s`. -/
def hasSub (pat : List Char) : List Char → Bool
  | [] => pat.isEmpty
  | c :: t => pat.isPrefixOf (c :: t) || hasSub pat t

/-- `str.lower()` (the error messages involved are ASCII). -/
def lowerStr (s : String) : String := String.mk (s.data.map Char.toLower)

/-- `PlatformEnterpriseAgent._is_fatal_error` (lines 579-589): the error's
string contains one of the fatal substrings, case-insensitively. -/
def isFatalError (error : String) : Bool :=
  let errorStr := lowerStr error
  fatalMessages.any (fun msg => hasSub msg.data errorStr.data)

/-- The dict returned by `execute_with_retry`: `success` and `attempts` are
always present; `result`, `error`, `fatal` and `message` only on some paths
(absent keys are `none`). -/
structure RetryResult (α : Type) where
  success : Bool
  result : Option α := none
  error : Option String := none
  fatal : Option Bool := none
  attempts : Nat
  message : Option String := none
deriving DecidableEq

/-- `retries = max_retries or self.max_retries`: Python `or` takes the
default `self.max_retries = 3` when `max_retries` is `None` or `0`. -/
def resolveRetries : Option Nat → Nat
  | some (k + 1) => k + 1
  | _ => 3

/-- The `for attempt in range(retries)` loop of `execute_with_retry`
(lines 551-577), iterating over the list of remaining attempt indices
(`List.range retries`).  The operation is modelled as a function from the
attempt index to `ok result` (normal return) or `error e` (raised exception
with message `e`).  Alongside the returned dict, the instrumentation records
the durations passed to `time.sleep` (in order) and the number of times the
operation was invoked. -/
def retryLoop (op : Nat → Except String α) (retries : Nat) :
    List Nat → Option String → List Nat → Nat →
    RetryResult α × List Nat × Nat
  | [], lastError, sleeps, calls =>
      ({ success := false, error := lastError, attempts := retries,
         message := some "Max retries exceeded" }, sleeps, calls)
  | attempt :: rest, lastError, sleeps, calls =>
      match op attempt with
      | .ok r =>
          ({ success := true, result := some r, attempts := attempt + 1 },
           sleeps, calls + 1)
      | .error e =>
          if isFatalError e then
            ({ success := false, error := some e, fatal := some true,
               attempts := attempt + 1 }, sleeps, calls + 1)
          else if attempt < retries - 1 then
            retryLoop op retries rest (some e) (sleeps ++ [2 ^ attempt]) (calls + 1)
          else
            retryLoop op retries rest (some e) sleeps (calls + 1)

/-- `PlatformEnterpriseAgent.execute_with_retry` (lines 536-577), with
`self.retry_backoff_base = 2` and `self.max_retries = 3` from `__init__`. -/
def executeWithRetry (op : Nat → Except String α) (maxRetries : Option Nat) :
    RetryResult α × List Nat × Nat :=
  let retries := resolveRetries maxRetries
  retryLoop op retries (List.range retries) none [] 0

/-- One call to the idempotency interface, for reasoning over call
sequences: the arguments of `ensure_idempotent` or `complete_operation`. -/
inductive OpCall where
  | ensure (operationId operationType actorId freshId : String) (now : Nat)
  | complete (operationId : String) (result : Json) (success : Bool) (now : Nat)

/-- The database after one idempotency call.  A failed `ensure` commit
(IntegrityError) rolls the transaction back and leaves the database
unchanged. -/
def applyCall (db : DB) : OpCall → DB
  | .ensure oid ot aid fid now =>
      match ensureIdempotent db oid ot aid fid now with
      | .ok r => r.2
      | .error _ => db
  | .complete oid res success now => completeOperation db oid res success now

/-- The database after a sequence of idempotency calls. -/
def runCalls (db : DB) : List OpCall → DB
  | [] => db
  | c :: rest => runCalls (applyCall db c) rest

/-- How many calls of the sequence are `ensure_idempotent` calls for `opId`
that return a proceed signal (`is_duplicate: False`). -/
def proceedCount (db : DB) (opId : String) : List OpCall → Nat
  | [] => 0
  | c :: rest =>
    let here : Nat :=
      match c with
      | .ensure oid ot aid fid now =>
        if oid == opId then
          match ensureIdempotent db oid ot aid fid now with
          | .ok (.proceed _ _, _) => 1
          | _ => 0
        else 0
      | .complete _ _ _ _ => 0
    here + proceedCount (applyCall db c) opId rest

/-- The number of `operation_locks` rows carrying a given `operation_id`. -/
def lockCount (db : DB) (opId : String) : Nat :=
  db.locks.countP (fun l => l.operationId == opId)

/-! Helper lemmas about the row-update combinator. -/

theorem updateFirst_of_find?_none {p : α → Bool} {f : α → α} {l : List α}
    (h : l.find? p = none) : updateFirst p f l = l := by
  induction l with
  | nil => rfl
  | cons x xs ih =>
    rw [List.find?_eq_none] at h
    have hx : p x = false := by
      have := h x (List.mem_cons_self x xs)
      simpa using this
    simp only [updateFirst, hx, Bool.false_eq_true, if_false, List.cons.injEq,
      true_and]
    exact ih (by rw [List.find?_eq_none]; intro y hy; exact h y (List.mem_cons_of_mem x hy))

theorem find?_updateFirst_some {p : α → Bool} {f : α → α} {l : List α} {x : α}
    (h : l.find? p = some x) (hf : p (f x) = true) :
    (updateFirst p f l).find? p = some (f x) := by
  induction l with
  | nil => simp at h
  | cons y ys ih =>
    by_cases hy : p y = true
    · rw [List.find?_cons_of_pos _ hy] at h
      injection h with h
      subst h
      simp [updateFirst, hy, List.find?_cons_of_pos _ hf]
    · have hy' : ¬ p y := by simpa using hy
      rw [List.find?_cons_of_neg _ hy'] at h
      simp [updateFirst, hy, List.find?_cons_of_neg _ hy', ih h]

theorem updateFirst_append_singleton_of_none {p : α → Bool} {f : α → α}
    {l : List α} {x : α} (h : l.find? p = none) (hx : p x = true) :
    updateFirst p f (l ++ [x]) = l ++ [f x] := by
  induction l with
  | nil => simp [updateFirst, hx]
  | cons y ys ih =>
    rw [List.find?_eq_none] at h
    have hy : p y = false := by
      have := h y (List.mem_cons_self y ys)
      simpa using this
    have hys : ys.find? p = none := by
      rw [List.find?_eq_none]; intro z hz; exact h z (List.mem_cons_of_mem y hz)
    simp only [List.cons_append, updateFirst, hy, Bool.false_eq_true, if_false,
      List.cons.injEq, true_and]
    exact ih hys

theorem find?_append_singleton_of_none {p : α → Bool} {l : List α} {x : α}
    (h : l.find? p = none) :
    (l ++ [x]).find? p = if p x then some x else none := by
  rw [List.find?_append, h]
  by_cases hx : p x = true
  · simp [hx]
  · have hx' : ¬ p x := by simpa using hx
    simp [List.find?_cons_of_neg _ hx', hx']

theorem countP_updateFirst {p q : α → Bool} {f : α → α}
    (hf : ∀ x, p (f x) = p x) (l : List α) :
    (updateFirst q f l).countP p = l.countP p := by
  induction l with
  | nil => rfl
  | cons x xs ih =>
    by_cases hx : q x = true
    · simp [updateFirst, hx, List.countP_cons, hf]
    · simp [updateFirst, hx, List.countP_cons, ih]

/-! ### C3: the permission decision of `check_permission` -/

/-- C3: for every active, known principal and every permission string,
`check_permission` returns Allowed iff the principal's role permission set
contains the full wildcard, the exact permission, or the category wildcard
(category = substring before the first `:`), or the principal's individual
extra grants contain the exact permission; an unknown or inactive principal
is always Denied. -/
theorem checkPermission_allowed_iff :
    (∀ (db : DB) (userId permission : String) (user : User),
        db.users.find? (fun u => u.id == userId) = some user →
        user.isActive = true →
        ((checkPermission db userId permission).1.allowed = true ↔
          ("*" ∈ rolePermissions user.role
            ∨ permission ∈ rolePermissions user.role
            ∨ (permCategory permission ++ ":*") ∈ rolePermissions user.role
            ∨ permission ∈ user.permissions.getD [])))
    ∧ (∀ (db : DB) (userId permission : String),
        db.users.find? (fun u => u.id == userId) = none →
        (checkPermission db userId permission).1.allowed = false)
    ∧ (∀ (db : DB) (userId permission : String) (user : User),
        db.users.find? (fun u => u.id == userId) = some user →
        user.isActive = false →
        (checkPermission db userId permission).1.allowed = false) := by
  refine ⟨?_, ?_, ?_⟩
  · intro db userId permission user hfind hact
    unfold checkPermission
    rw [hfind]
    simp only [hact, Bool.not_true, Bool.false_eq_true, if_false]
    by_cases h1 : "*" ∈ rolePermissions user.role
    · simp [h1]
    · simp only [h1, if_false]
      by_cases h2 : permission ∈ rolePermissions user.role
      · simp [h2]
      · simp only [h2, if_false]
        by_cases h3 : (permCategory permission ++ ":*") ∈ rolePermissions user.role
        · simp [h3]
        · simp only [h3, if_false]
          by_cases h4 : permission ∈ user.permissions.getD []
          · simp [h1, h2, h3, h4]
          · simp [h1, h2, h3, h4]
  · intro db userId permission hfind
    unfold checkPermission
    rw [hfind]
  · intro db userId permission user hfind hact
    unfold checkPermission
    rw [hfind]
    simp [hact]

/-- Witness for the hypotheses of `checkPermission_allowed_iff`: a concrete
database with one active manager, whose category wildcard `read:*` covers
`read:report`. -/
theorem checkPermission_allowed_iff_witness :
    (checkPermission
      { users := [{ id := "u3", email := "m@x", name := "Mia", role := .manager,
                    permissions := none, isActive := true }],
        auditLogs := [], approvals := [], states := [], locks := [] }
      "u3" "read:report").1.allowed = true ↔
      ("*" ∈ rolePermissions UserRole.manager
        ∨ "read:report" ∈ rolePermissions UserRole.manager
        ∨ (permCategory "read:report" ++ ":*") ∈ rolePermissions UserRole.manager
        ∨ "read:report" ∈ (none : Option (List String)).getD []) :=
  checkPermission_allowed_iff.1
    { users := [{ id := "u3", email := "m@x", name := "Mia", role := .manager,
                  permissions := none, isActive := true }],
      auditLogs := [], approvals := [], states := [], locks := [] }
    "u3" "read:report"
    { id := "u3", email := "m@x", name := "Mia", role := .manager,
      permissions := none, isActive := true }
    (by rfl) (by rfl)

/-! ### C9: the viewer / `task:create` denial -/

/-- C9 fails as stated: it quantifies over every principal with role viewer,
but `check_permission` consults the principal's individual extra grants after
the role matrix, so an active viewer whose `permissions` column contains
`task:create` is Allowed, not Denied. -/
theorem checkPermission_viewer_counterexample :
    (checkPermission
      { users := [{ id := "u2", email := "g@x", name := "Gil", role := .viewer,
                    permissions := some ["task:create"], isActive := true }],
        auditLogs := [], approvals := [], states := [], locks := [] }
      "u2" "task:create").1.allowed = true := by decide

/-- C9 amended: for every active principal with role viewer whose individual
extra grants do not contain `task:create`, `check_permission` for
`task:create` returns Denied; the response's `reason` names the missing
permission and its `user_role` key names the principal's role. -/
theorem checkPermission_viewer_task_create_denied
    (db : DB) (userId : String) (user : User)
    (hfind : db.users.find? (fun u => u.id == userId) = some user)
    (hrole : user.role = .viewer) (hact : user.isActive = true)
    (hgrant : "task:create" ∉ user.permissions.getD []) :
    (checkPermission db userId "task:create").1.allowed = false
    ∧ (checkPermission db userId "task:create").1.reason
        = some "Permission 'task:create' not granted"
    ∧ (checkPermission db userId "task:create").1.userRole = some "viewer" := by
  unfold checkPermission
  rw [hfind]
  simp only [hact, Bool.not_true, Bool.false_eq_true, if_false]
  rw [hrole]
  have h1 : ¬("*" ∈ rolePermissions UserRole.viewer) := by decide
  have h2 : ¬("task:create" ∈ rolePermissions UserRole.viewer) := by decide
  have h3 : ¬((permCategory "task:create" ++ ":*") ∈ rolePermissions UserRole.viewer) := by
    decide
  simp [h1, h2, h3, hgrant, UserRole.value]

/-- Witness for the hypotheses of `checkPermission_viewer_task_create_denied`:
an active viewer with no extra grants. -/
theorem checkPermission_viewer_task_create_denied_witness :
    (checkPermission
      { users := [{ id := "u1", email := "v@x", name := "Vera", role := .viewer,
                    permissions := none, isActive := true }],
        auditLogs := [], approvals := [], states := [], locks := [] }
      "u1" "task:create").1.allowed = false
    ∧ (checkPermission
      { users := [{ id := "u1", email := "v@x", name := "Vera", role := .viewer,
                    permissions := none, isActive := true }],
        auditLogs := [], approvals := [], states := [], locks := [] }
      "u1" "task:create").1.reason = some "Permission 'task:create' not granted"
    ∧ (checkPermission
      { users := [{ id := "u1", email := "v@x", name := "Vera", role := .viewer,
                    permissions := none, isActive := true }],
        auditLogs := [], approvals := [], states := [], locks := [] }
      "u1" "task:create").1.userRole = some "viewer" :=
  checkPermission_viewer_task_create_denied
    { users := [{ id := "u1", email := "v@x", name := "Vera", role := .viewer,
                  permissions := none, isActive := true }],
      auditLogs := [], approvals := [], states := [], locks := [] }
    "u1"
    { id := "u1", email := "v@x", name := "Vera", role := .viewer,
      permissions := none, isActive := true }
    (by rfl) (by rfl) (by rfl) (by decide)

/-! ### C7 and C8: the retry executor -/

/-- C7: an operation whose first invocation raises a fatal error (per
`_is_fatal_error`) is invoked exactly once, no backoff sleep happens, and
`execute_with_retry` reports failure with `fatal=True` and `attempts=1`,
whatever `max_retries` is. -/
theorem executeWithRetry_fatal_stops {α : Type} (op : Nat → Except String α)
    (maxRetries : Option Nat) (e : String)
    (hop : op 0 = .error e) (hfatal : isFatalError e = true) :
    executeWithRetry op maxRetries =
      ({ success := false, error := some e, fatal := some true, attempts := 1 },
       ([] : List Nat), 1) := by
  obtain ⟨k, hk⟩ : ∃ k, resolveRetries maxRetries = k + 1 := by
    cases maxRetries with
    | none => exact ⟨2, rfl⟩
    | some n => cases n with
      | zero => exact ⟨2, rfl⟩
      | succ k => exact ⟨k, rfl⟩
  simp only [executeWithRetry]
  rw [hk, List.range_succ_eq_map]
  simp [retryLoop, hop, hfatal]

/-- Witness for the hypotheses of `executeWithRetry_fatal_stops`: an operation
that always raises `unauthorized`, with the default `max_retries`. -/
theorem executeWithRetry_fatal_stops_witness :
    executeWithRetry (fun _ => (.error "unauthorized" : Except String Nat)) none =
      ({ success := false, error := some "unauthorized", fatal := some true,
         attempts := 1 }, ([] : List Nat), 1) :=
  executeWithRetry_fatal_stops (fun _ => (.error "unauthorized" : Except String Nat))
    none "unauthorized" rfl (by decide)

/-- C8: an operation that always raises a non-fatal (transient) error is,
with `max_retries=3`, invoked exactly 3 times, with backoff sleeps of `2^0`
then `2^1` time units between consecutive attempts and none after the last,
and `execute_with_retry` reports failure with the `fatal` key absent and
`attempts=3`. -/
theorem executeWithRetry_transient_exhausts {α : Type}
    (op : Nat → Except String α) (errs : Nat → String)
    (hop : ∀ i, i < 3 → op i = .error (errs i))
    (hnf : ∀ i, i < 3 → isFatalError (errs i) = false) :
    executeWithRetry op (some 3) =
      ({ success := false, error := some (errs 2), attempts := 3,
         message := some "Max retries exceeded" }, [2 ^ 0, 2 ^ 1], 3) := by
  have h0 := hop 0 (by norm_num)
  have h1 := hop 1 (by norm_num)
  have h2 := hop 2 (by norm_num)
  have f0 := hnf 0 (by norm_num)
  have f1 := hnf 1 (by norm_num)
  have f2 := hnf 2 (by norm_num)
  have start : executeWithRetry op (some 3) = retryLoop op 3 [0, 1, 2] none [] 0 := rfl
  rw [start]
  simp [retryLoop, h0, h1, h2, f0, f1, f2]

/-- Witness for the hypotheses of `executeWithRetry_transient_exhausts`: an
operation that always raises `timeout`, which matches no fatal substring. -/
theorem executeWithRetry_transient_exhausts_witness :
    executeWithRetry (fun _ => (.error "timeout" : Except String Nat)) (some 3) =
      ({ success := false, error := some "timeout", attempts := 3,
         message := some "Max retries exceeded" }, [2 ^ 0, 2 ^ 1], 3) :=
  executeWithRetry_transient_exhausts
    (fun _ => (.error "timeout" : Except String Nat)) (fun _ => "timeout")
    (fun _ _ => rfl) (fun _ _ => show isFatalError "timeout" = false by decide)

/-! ### C4: state versioning round trip -/

theorem saveState_states_fresh (db : DB) (key : String) (v : Json)
    (cb : String) (rs : Option String) (fid : String) (t : Nat)
    (h : db.states.find? (fun s => s.key == key) = none) :
    (saveState db key v cb rs fid t).2.states = db.states ++
      [{ id := fid, key := key, value := v, version := 1,
         previousValue := none, changedBy := some cb, changeReason := rs,
         updatedAt := t }] := by
  unfold saveState
  rw [h]
  rfl

theorem saveState_states_existing (db : DB) (key : String) (v : Json)
    (cb : String) (rs : Option String) (fid : String) (t : Nat)
    (l : List SystemState) (st : SystemState)
    (hs : db.states = l ++ [st])
    (hl : l.find? (fun s => s.key == key) = none) (hk : st.key = key) :
    (saveState db key v cb rs fid t).2.states = l ++
      [{ st with
          previousValue := some st.value, value := v,
          version := st.version + 1, changedBy := some cb, changeReason := rs,
          isRollback := false, updatedAt := t }] := by
  have hp : (fun s : SystemState => s.key == key) st = true := by
    simp [hk]
  have hfind : db.states.find? (fun s => s.key == key) = some st := by
    rw [hs, find?_append_singleton_of_none hl, if_pos hp]
  unfold saveState
  rw [hfind]
  simp only [logAudit]
  rw [hs, updateFirst_append_singleton_of_none hl hp]

theorem rollbackState_states_existing (db : DB) (key rb rr : String) (t : Nat)
    (l : List SystemState) (st : SystemState) (prev : Json)
    (hs : db.states = l ++ [st])
    (hl : l.find? (fun s => s.key == key) = none) (hk : st.key = key)
    (hprev : st.previousValue = some prev) :
    (rollbackState db key rb rr t).2.states = l ++
      [{ st with
          value := prev, previousValue := some st.value,
          version := st.version + 1, isRollback := true,
          rolledBackFromVersion := some st.version,
          changedBy := some rb, changeReason := some rr, updatedAt := t }] := by
  have hp : (fun s : SystemState => s.key == key) st = true := by
    simp [hk]
  have hfind : db.states.find? (fun s => s.key == key) = some st := by
    rw [hs, find?_append_singleton_of_none hl, if_pos hp]
  unfold rollbackState
  rw [hfind]
  simp only [logAudit]
  rw [hprev]
  simp only [logAudit]
  rw [hs, updateFirst_append_singleton_of_none hl hp]
  simp [hprev]

theorem getState_last (db : DB) (key : String)
    (l : List SystemState) (st : SystemState)
    (hs : db.states = l ++ [st])
    (hl : l.find? (fun s => s.key == key) = none) (hk : st.key = key) :
    getState db key = .ok key st.value st.version st.updatedAt := by
  have hp : (fun s : SystemState => s.key == key) st = true := by
    simp [hk]
  have hfind : db.states.find? (fun s => s.key == key) = some st := by
    rw [hs, find?_append_singleton_of_none hl, if_pos hp]
  unfold getState
  rw [hfind]

/-- C4: for every key and values `v1`, `v2`: starting from a database with no
state row for the key, the sequence `save_state(key, v1)`,
`save_state(key, v2)`, `rollback_state(key)` makes `get_state(key)` return
value `v1` at version 3, and a further `rollback_state(key)` makes
`get_state(key)` return value `v2` at version 4. -/
theorem saveRollback_roundtrip
    (db : DB) (key : String) (v1 v2 : Json)
    (cb1 cb2 rb1 rb2 : String) (rs1 rs2 : Option String) (rr1 rr2 : String)
    (id1 id2 : String) (t1 t2 t3 t4 : Nat)
    (h : db.states.find? (fun s => s.key == key) = none) :
    getState (rollbackState
      (saveState (saveState db key v1 cb1 rs1 id1 t1).2 key v2 cb2 rs2 id2 t2).2
      key rb1 rr1 t3).2 key = .ok key v1 3 t3
    ∧ getState (rollbackState (rollbackState
        (saveState (saveState db key v1 cb1 rs1 id1 t1).2 key v2 cb2 rs2 id2 t2).2
        key rb1 rr1 t3).2 key rb2 rr2 t4).2 key = .ok key v2 4 t4 := by
  have s1 := saveState_states_fresh db key v1 cb1 rs1 id1 t1 h
  have s2 := saveState_states_existing
    (saveState db key v1 cb1 rs1 id1 t1).2 key v2 cb2 rs2 id2 t2
    db.states _ s1 h rfl
  have r3 := rollbackState_states_existing
    (saveState (saveState db key v1 cb1 rs1 id1 t1).2 key v2 cb2 rs2 id2 t2).2
    key rb1 rr1 t3 db.states _ v1 s2 h rfl rfl
  have r4 := rollbackState_states_existing
    (rollbackState
      (saveState (saveState db key v1 cb1 rs1 id1 t1).2 key v2 cb2 rs2 id2 t2).2
      key rb1 rr1 t3).2
    key rb2 rr2 t4 db.states _ v2 r3 h rfl rfl
  exact ⟨getState_last _ key db.states _ r3 h rfl,
         getState_last _ key db.states _ r4 h rfl⟩

/-- Witness for the hypotheses of `saveRollback_roundtrip`: the empty
database, key `k`, values `1` and `2`. -/
theorem saveRollback_roundtrip_witness :
    getState (rollbackState
      (saveState (saveState emptyDB "k" (.num 1) "a" none "id1" 10).2
        "k" (.num 2) "b" none "id2" 11).2
      "k" "c" "r1" 12).2 "k" = .ok "k" (.num 1) 3 12
    ∧ getState (rollbackState (rollbackState
        (saveState (saveState emptyDB "k" (.num 1) "a" none "id1" 10).2
          "k" (.num 2) "b" none "id2" 11).2
        "k" "c" "r1" 12).2 "k" "d" "r2" 13).2 "k" = .ok "k" (.num 2) 4 13 :=
  saveRollback_roundtrip emptyDB "k" (.num 1) (.num 2)
    "a" "b" "c" "d" none none "r1" "r2" "id1" "id2" 10 11 12 13 rfl

/-! ### C2: approval requests are resolved at most once -/

theorem checkPermission_approvals (db : DB) (userId permission : String) :
    (checkPermission db userId permission).2.approvals = db.approvals := by
  unfold checkPermission
  split
  · simp [logAudit]
  · dsimp only
    split_ifs <;> simp [logAudit]

/-- C2: every `process_approval` call on an `ApprovalRequest` whose status is
not PENDING fails with an error naming the current status and leaves the
request (and the whole database) unchanged; consequently the status of the
targeted request only ever changes from PENDING, and then only to APPROVED,
REJECTED or EXPIRED. -/
theorem processApproval_resolved_terminal
    (db : DB) (approvalId approverId : String) (approved : Bool)
    (reason : String) (now : Nat) (approval : ApprovalRequest)
    (hfind : db.approvals.find? (fun a => a.id == approvalId) = some approval) :
    (approval.status ≠ .pending →
        processApproval db approvalId approverId approved reason now =
          (.err ("Approval already " ++ approval.status.value), db))
    ∧ (∀ a2 : ApprovalRequest,
        (processApproval db approvalId approverId approved reason now).2.approvals.find?
          (fun a => a.id == approvalId) = some a2 →
        a2.status = approval.status
        ∨ (approval.status = .pending ∧
            (a2.status = .approved ∨ a2.status = .rejected ∨ a2.status = .expired))) := by
  have herr : approval.status ≠ .pending →
      processApproval db approvalId approverId approved reason now =
        (.err ("Approval already " ++ approval.status.value), db) := by
    intro hne
    unfold processApproval
    rw [hfind]
    have hb : (approval.status != ApprovalStatus.pending) = true := by
      simpa using hne
    simp [hb]
  refine ⟨herr, ?_⟩
  intro a2 ha2
  by_cases hp : approval.status = ApprovalStatus.pending
  · unfold processApproval at ha2
    rw [hfind] at ha2
    have hb : (approval.status != ApprovalStatus.pending) = false := by
      simp [hp]
    simp only [hb, Bool.false_eq_true, if_false] at ha2
    by_cases hexp : approval.expiresAt < now
    · simp only [hexp, if_true, logAudit] at ha2
      have hid : (fun a : ApprovalRequest => a.id == approvalId)
          ({ approval with status := ApprovalStatus.expired }) = true := by
        have := List.find?_some hfind
        simpa using this
      rw [find?_updateFirst_some hfind hid] at ha2
      injection ha2 with ha2
      right
      exact ⟨hp, Or.inr (Or.inr (by rw [← ha2]))⟩
    · simp only [hexp, if_false, logAudit] at ha2
      by_cases hal :
          (checkPermission db approverId ("approve:" ++ approval.actionType)).1.allowed
      · have hfind2 : (checkPermission db approverId
            ("approve:" ++ approval.actionType)).2.approvals.find?
              (fun a => a.id == approvalId) = some approval := by
          rw [checkPermission_approvals]; exact hfind
        have hid : ∀ st : ApprovalStatus,
            (fun a : ApprovalRequest => a.id == approvalId)
              ({ approval with
                  status := st, resolvedBy := some approverId,
                  resolvedAt := some now, resolutionReason := some reason }) = true := by
          intro st
          have := List.find?_some hfind
          simpa using this
        simp only [hal, Bool.not_true, Bool.false_eq_true, if_false, logAudit] at ha2
        rw [find?_updateFirst_some hfind2 (hid _)] at ha2
        injection ha2 with ha2
        right
        refine ⟨hp, ?_⟩
        by_cases happ : approved = true
        · exact Or.inl (by rw [← ha2, happ]; rfl)
        · have : approved = false := by simpa using happ
          exact Or.inr (Or.inl (by rw [← ha2, this]; rfl))
      · have hal' : (!(checkPermission db approverId
            ("approve:" ++ approval.actionType)).1.allowed) = true := by
          simpa using hal
        simp only [hal', if_true] at ha2
        rw [checkPermission_approvals] at ha2
        rw [hfind] at ha2
        injection ha2 with ha2
        left; rw [← ha2]
  · rw [herr hp] at ha2
    rw [hfind] at ha2
    injection ha2 with ha2
    left; rw [← ha2]

/-- Witness for the hypotheses of `processApproval_resolved_terminal`: a
database holding one already-approved request; processing it again fails with
the status-naming error and changes nothing. -/
theorem processApproval_resolved_terminal_witness :
    processApproval
      { users := [], auditLogs := [],
        approvals := [{ id := "a1", actionType := "delete_data",
                        sensitivity := .critical, resourceType := some "x",
                        resourceId := some "r", actionSummary := "s",
                        impactSummary := none, isReversible := true,
                        requesterId := "u1", requesterName := some "V",
                        requestedAt := 0, status := .approved,
                        expiresAt := 100 }],
        states := [], locks := [] }
      "a1" "u9" true "ok" 5 =
      (.err ("Approval already " ++ ApprovalStatus.approved.value),
        { users := [], auditLogs := [],
          approvals := [{ id := "a1", actionType := "delete_data",
                          sensitivity := .critical, resourceType := some "x",
                          resourceId := some "r", actionSummary := "s",
                          impactSummary := none, isReversible := true,
                          requesterId := "u1", requesterName := some "V",
                          requestedAt := 0, status := .approved,
                          expiresAt := 100 }],
          states := [], locks := [] }) :=
  (processApproval_resolved_terminal
    { users := [], auditLogs := [],
      approvals := [{ id := "a1", actionType := "delete_data",
                      sensitivity := .critical, resourceType := some "x",
                      resourceId := some "r", actionSummary := "s",
                      impactSummary := none, isReversible := true,
                      requesterId := "u1", requesterName := some "V",
                      requestedAt := 0, status := .approved,
                      expiresAt := 100 }],
      states := [], locks := [] }
    "a1" "u9" true "ok" 5
    { id := "a1", actionType := "delete_data",
      sensitivity := .critical, resourceType := some "x",
      resourceId := some "r", actionSummary := "s",
      impactSummary := none, isReversible := true,
      requesterId := "u1", requesterName := some "V",
      requestedAt := 0, status := .approved,
      expiresAt := 100 }
    (by rfl)).1 (by decide)

/-! ### C6: role escalation is gated behind approval, downgrades apply -/

/-- C6: for an existing principal, `update_user_role` to a role of strictly
higher rank (in the order viewer < contributor < manager < admin, i.e. by
index in `role_hierarchy`) leaves the users table unchanged and instead
creates and returns a pending `ApprovalRequest` of action type
`permission_change`; to a role of equal or lower rank it applies the new role
immediately and appends an audit entry recording the change. -/
theorem updateUserRole_escalation_gated
    (db : DB) (userId : String) (newRole : UserRole)
    (changedBy reason freshId : String) (now : Nat) (user : User)
    (hfind : db.users.find? (fun u => u.id == userId) = some user) :
    (roleHierarchy.indexOf user.role.value < roleHierarchy.indexOf newRole.value →
      (∃ cr : CreateApprovalResult,
          (updateUserRole db userId newRole changedBy reason freshId now).1 =
            .approvalPending cr
          ∧ cr.actionType = "permission_change" ∧ cr.status = "pending")
      ∧ (updateUserRole db userId newRole changedBy reason freshId now).2.users =
          db.users
      ∧ (∃ a : ApprovalRequest,
          (updateUserRole db userId newRole changedBy reason freshId now).2.approvals =
            db.approvals ++ [a]
          ∧ a.actionType = "permission_change" ∧ a.status = .pending))
    ∧ (roleHierarchy.indexOf newRole.value ≤ roleHierarchy.indexOf user.role.value →
      (updateUserRole db userId newRole changedBy reason freshId now).1 =
        .completed userId user.role.value newRole.value
      ∧ (updateUserRole db userId newRole changedBy reason freshId now).2.users.find?
          (fun u => u.id == userId) = some { user with role := newRole }
      ∧ (updateUserRole db userId newRole changedBy reason freshId now).2.auditLogs =
          db.auditLogs ++
            [{ actorId := changedBy, action := "update_role",
               resourceType := "user", resourceId := some userId,
               resourceName := some user.name,
               changes := some (Json.obj [("role", Json.obj
                 [("from", .str user.role.value), ("to", .str newRole.value)])]),
               reason := some reason, outcome := "success" }]) := by
  constructor
  · intro hesc
    have hcond : roleHierarchy.indexOf user.role.value <
        roleHierarchy.indexOf newRole.value := hesc
    unfold updateUserRole
    rw [hfind]
    simp only [hcond, if_true, ite_true]
    unfold createApprovalRequest
    refine ⟨⟨⟨freshId, "permission_change",
      ((sensitiveActions.lookup "permission_change").getD
        ActionSensitivity.medium).value, "pending", now + 48 * 3600,
      "Action requires approval before execution"⟩, ?_, rfl, rfl⟩, ?_, ?_⟩
    · simp [logAudit]
    · simp [logAudit]
    · refine ⟨{ id := freshId, actionType := "permission_change",
                sensitivity := (sensitiveActions.lookup "permission_change").getD
                  ActionSensitivity.medium,
                resourceType := some "user", resourceId := some userId,
                actionSummary := "Escalate " ++ user.name ++ " from " ++
                  user.role.value ++ " to " ++ newRole.value,
                impactSummary := some ("User will gain " ++ newRole.value ++
                  " permissions"),
                isReversible := true, requesterId := changedBy,
                requesterName := some (match db.users.find?
                  (fun u => u.id == changedBy) with
                  | some u => u.name
                  | none => "Unknown"),
                requestedAt := now, status := .pending,
                expiresAt := now + 48 * 3600 }, ?_, rfl, rfl⟩
      simp [logAudit]
  · intro hle
    have hcond : ¬ (roleHierarchy.indexOf user.role.value <
        roleHierarchy.indexOf newRole.value) := Nat.not_lt.mpr hle
    have hid : (fun u : User => u.id == userId) ({ user with role := newRole })
        = true := by
      have := List.find?_some hfind
      simpa using this
    unfold updateUserRole
    rw [hfind]
    simp only [hcond, if_false, ite_false]
    refine ⟨by trivial, ?_, ?_⟩
    · simp only [logAudit]
      exact find?_updateFirst_some hfind hid
    · simp [logAudit]

/-- Witness for the hypotheses of `updateUserRole_escalation_gated`: one
database with a contributor; escalating to admin is gated, downgrading to
viewer applies immediately. -/
theorem updateUserRole_escalation_gated_witness :
    ((∃ cr : CreateApprovalResult,
        (updateUserRole
          { users := [{ id := "u1", email := "c@x", name := "Cai",
                        role := .contributor, permissions := none,
                        isActive := true }],
            auditLogs := [], approvals := [], states := [], locks := [] }
          "u1" .admin "boss" "why" "ap1" 7).1 = .approvalPending cr
        ∧ cr.actionType = "permission_change" ∧ cr.status = "pending")
      ∧ (updateUserRole
          { users := [{ id := "u1", email := "c@x", name := "Cai",
                        role := .contributor, permissions := none,
                        isActive := true }],
            auditLogs := [], approvals := [], states := [], locks := [] }
          "u1" .admin "boss" "why" "ap1" 7).2.users =
          [{ id := "u1", email := "c@x", name := "Cai",
             role := .contributor, permissions := none, isActive := true }]
      ∧ (∃ a : ApprovalRequest,
          (updateUserRole
            { users := [{ id := "u1", email := "c@x", name := "Cai",
                          role := .contributor, permissions := none,
                          isActive := true }],
              auditLogs := [], approvals := [], states := [], locks := [] }
            "u1" .admin "boss" "why" "ap1" 7).2.approvals = [] ++ [a]
          ∧ a.actionType = "permission_change" ∧ a.status = .pending))
    ∧ ((updateUserRole
          { users := [{ id := "u1", email := "c@x", name := "Cai",
                        role := .contributor, permissions := none,
                        isActive := true }],
            auditLogs := [], approvals := [], states := [], locks := [] }
          "u1" .viewer "boss" "why" "ap1" 7).1 =
        .completed "u1" UserRole.contributor.value UserRole.viewer.value) :=
  ⟨(updateUserRole_escalation_gated
      { users := [{ id := "u1", email := "c@x", name := "Cai",
                    role := .contributor, permissions := none,
                    isActive := true }],
        auditLogs := [], approvals := [], states := [], locks := [] }
      "u1" .admin "boss" "why" "ap1" 7
      { id := "u1", email := "c@x", name := "Cai", role := .contributor,
        permissions := none, isActive := true }
      (by rfl)).1 (by decide),
   ((updateUserRole_escalation_gated
      { users := [{ id := "u1", email := "c@x", name := "Cai",
                    role := .contributor, permissions := none,
                    isActive := true }],
        auditLogs := [], approvals := [], states := [], locks := [] }
      "u1" .viewer "boss" "why" "ap1" 7
      { id := "u1", email := "c@x", name := "Cai", role := .contributor,
        permissions := none, isActive := true }
      (by rfl)).2 (by decide)).1⟩

/-! ### Characterization of `ensure_idempotent` and `complete_operation` -/

theorem ensureIdempotent_completed (db : DB) (opId ot aid fid : String)
    (now : Nat) (l : OperationLock)
    (hfind : db.locks.find? (fun x => x.operationId == opId) = some l)
    (hst : l.status = .completed) :
    ensureIdempotent db opId ot aid fid now =
      .ok (.duplicateCompleted l.result l.completedAt, db) := by
  unfold ensureIdempotent
  rw [hfind]
  cases hr : l.result <;> simp [hst, hr]

theorem ensureIdempotent_inProgress (db : DB) (opId ot aid fid : String)
    (now : Nat) (l : OperationLock)
    (hfind : db.locks.find? (fun x => x.operationId == opId) = some l)
    (hst : l.status = .inProgress) :
    ensureIdempotent db opId ot aid fid now = .ok (.duplicateInProgress, db) := by
  unfold ensureIdempotent
  rw [hfind]
  simp [hst]

theorem ensureIdempotent_blocked (db : DB) (opId ot aid fid : String)
    (now : Nat) (l : OperationLock)
    (hfind : db.locks.find? (fun x => x.operationId == opId) = some l)
    (hst1 : l.status ≠ .completed) (hst2 : l.status ≠ .inProgress) :
    ensureIdempotent db opId ot aid fid now =
      .error "UNIQUE constraint failed: operation_locks.operation_id" := by
  have hpl := List.find?_some hfind
  have hmem : db.locks.any (fun x => x.operationId == opId) = true := by
    refine List.any_eq_true.mpr ⟨l, List.mem_of_find?_eq_some hfind, ?_⟩
    simpa using hpl
  unfold ensureIdempotent dbCommitInsertLock
  rw [hfind]
  cases hst : l.status with
  | pending => simp [hmem, hst]
  | inProgress => exact absurd hst hst2
  | completed => exact absurd hst hst1
  | failed => simp [hmem, hst]

theorem ensureIdempotent_fresh (db : DB) (opId ot aid fid : String) (now : Nat)
    (hfind : db.locks.find? (fun x => x.operationId == opId) = none) :
    ensureIdempotent db opId ot aid fid now =
      .ok (.proceed fid opId,
        { db with locks := db.locks ++
          [{ id := fid, operationId := opId, operationType := ot,
             status := .inProgress, expiresAt := now + 1 * 3600,
             actorId := aid }] }) := by
  have hnone : db.locks.any (fun x => x.operationId == opId) = false := by
    rw [List.any_eq_false]
    intro x hx
    have := List.find?_eq_none.mp hfind x hx
    simpa using this
  unfold ensureIdempotent dbCommitInsertLock
  rw [hfind]
  simp [hnone]

theorem completeOperation_found (db : DB) (opId : String) (res : Json)
    (success : Bool) (now : Nat) (l : OperationLock)
    (hfind : db.locks.find? (fun x => x.operationId == opId) = some l) :
    completeOperation db opId res success now =
      { db with locks := updateFirst (fun x => x.operationId == opId) (fun x => { x with status := if success then .completed else .failed, result := some res, completedAt := some now }) db.locks } := by
  unfold completeOperation
  rw [hfind]

/-! ### C5: a completed operation replays its cached result -/

/-- C5: once a lock row exists for an operation id (the operation passed
through `ensure_idempotent`), after `complete_operation(opId, R, success=True)`
every later `ensure_idempotent` call for that id returns the duplicate signal
carrying the cached result `R`, and leaves the database unchanged — no new
lock is created and the caller is told not to re-run the action. -/
theorem ensureIdempotent_after_complete_returns_cached
    (db : DB) (opId ot aid fid : String) (res : Json) (now1 now2 : Nat)
    (l : OperationLock)
    (hfind : db.locks.find? (fun x => x.operationId == opId) = some l) :
    ensureIdempotent (completeOperation db opId res true now1) opId ot aid fid now2 =
      .ok (.duplicateCompleted (some res) (some now1),
           completeOperation db opId res true now1) := by
  have hid : (fun x : OperationLock => x.operationId == opId) ({ l with status := if true then .completed else .failed, result := some res, completedAt := some now1 }) = true := by
    have := List.find?_some hfind
    simpa using this
  have hfind2 : (completeOperation db opId res true now1).locks.find?
      (fun x => x.operationId == opId) =
      some ({ l with status := if true then .completed else .failed, result := some res, completedAt := some now1 }) := by
    rw [completeOperation_found db opId res true now1 l hfind]
    exact find?_updateFirst_some hfind hid
  have h := ensureIdempotent_completed (completeOperation db opId res true now1)
    opId ot aid fid now2 _ hfind2 (by simp)
  simpa using h

/-- Witness for the hypotheses of
`ensureIdempotent_after_complete_returns_cached`: a database holding one
in-progress lock for `op1` (as created by a first `ensure_idempotent`). -/
theorem ensureIdempotent_after_complete_returns_cached_witness :
    ensureIdempotent
      (completeOperation
        { users := [], auditLogs := [], approvals := [], states := [],
          locks := [{ id := "l1", operationId := "op1", operationType := "t",
                      status := .inProgress, result := none, expiresAt := 3600,
                      completedAt := none, actorId := "a" }] }
        "op1" (.str "R") true 5)
      "op1" "t" "a" "l2" 9 =
      .ok (.duplicateCompleted (some (.str "R")) (some 5),
        completeOperation
          { users := [], auditLogs := [], approvals := [], states := [],
            locks := [{ id := "l1", operationId := "op1", operationType := "t",
                        status := .inProgress, result := none, expiresAt := 3600,
                        completedAt := none, actorId := "a" }] }
          "op1" (.str "R") true 5) :=
  ensureIdempotent_after_complete_returns_cached
    { users := [], auditLogs := [], approvals := [], states := [],
      locks := [{ id := "l1", operationId := "op1", operationType := "t",
                  status := .inProgress, result := none, expiresAt := 3600,
                  completedAt := none, actorId := "a" }] }
    "op1" "t" "a" "l2" (.str "R") 5 9
    { id := "l1", operationId := "op1", operationType := "t",
      status := .inProgress, result := none, expiresAt := 3600,
      completedAt := none, actorId := "a" }
    (by rfl)

/-! ### C10: a FAILED lock does not make the operation re-executable -/

/-- C10 fails as stated: on a FAILED lock, `ensure_idempotent` indeed does
not report a duplicate and falls through to inserting a second lock row with
the same `operation_id` — but that insert violates the UNIQUE constraint on
`operation_locks.operation_id`, so the call raises an integrity error instead
of returning `is_duplicate=False`. -/
theorem ensureIdempotent_failed_counterexample :
    ensureIdempotent
      { users := [], auditLogs := [], approvals := [], states := [],
        locks := [{ id := "l1", operationId := "op1", operationType := "t",
                    status := .failed, result := some (.str "E"),
                    expiresAt := 50, completedAt := some 3, actorId := "a" }] }
      "op1" "t" "a" "l2" 100 =
      .error "UNIQUE constraint failed: operation_locks.operation_id" := by rfl

/-- C10 amended: for an existing OperationLock with status FAILED (or
PENDING), a subsequent `ensure_idempotent` call does not report a duplicate:
it attempts to insert a second lock row with the same `operation_id`, which
violates the UNIQUE constraint, so the call fails with an integrity error and
the failed operation is not re-executable through the idempotency gate. -/
theorem ensureIdempotent_failed_blocked
    (db : DB) (opId ot aid fid : String) (now : Nat) (l : OperationLock)
    (hfind : db.locks.find? (fun x => x.operationId == opId) = some l)
    (hst : l.status = .failed ∨ l.status = .pending) :
    ensureIdempotent db opId ot aid fid now =
      .error "UNIQUE constraint failed: operation_locks.operation_id" := by
  rcases hst with h | h
  · exact ensureIdempotent_blocked db opId ot aid fid now l hfind
      (by simp [h]) (by simp [h])
  · exact ensureIdempotent_blocked db opId ot aid fid now l hfind
      (by simp [h]) (by simp [h])

/-- Witness for the hypotheses of `ensureIdempotent_failed_blocked`: a
database holding one FAILED lock for `op1`. -/
theorem ensureIdempotent_failed_blocked_witness :
    ensureIdempotent
      { users := [], auditLogs := [], approvals := [], states := [],
        locks := [{ id := "l1", operationId := "op1", operationType := "t",
                    status := .failed, result := some (.str "E"),
                    expiresAt := 50, completedAt := some 3, actorId := "b" }] }
      "op1" "t" "b" "l9" 100 =
      .error "UNIQUE constraint failed: operation_locks.operation_id" :=
  ensureIdempotent_failed_blocked
    { users := [], auditLogs := [], approvals := [], states := [],
      locks := [{ id := "l1", operationId := "op1", operationType := "t",
                  status := .failed, result := some (.str "E"),
                  expiresAt := 50, completedAt := some 3, actorId := "b" }] }
    "op1" "t" "b" "l9" 100
    { id := "l1", operationId := "op1", operationType := "t",
      status := .failed, result := some (.str "E"),
      expiresAt := 50, completedAt := some 3, actorId := "b" }
    (by rfl) (Or.inl rfl)

/-! ### C1: at most one lock row and one proceed signal per operation id -/

theorem lockCount_completeOperation (db : DB) (oid : String) (res : Json)
    (success : Bool) (now : Nat) (opId : String) :
    lockCount (completeOperation db oid res success now) opId =
      lockCount db opId := by
  unfold completeOperation
  cases h : db.locks.find? (fun x => x.operationId == oid) with
  | none => rfl
  | some l =>
    simp only [lockCount]
    apply countP_updateFirst
    intro x
    rfl

theorem lockCount_zero_of_find?_none (db : DB) (oid : String)
    (hfind : db.locks.find? (fun x => x.operationId == oid) = none) :
    lockCount db oid = 0 := by
  simp only [lockCount]
  rw [List.countP_eq_zero]
  intro x hx
  have := List.find?_eq_none.mp hfind x hx
  simpa using this

theorem lockCount_proceedCount_invariant (calls : List OpCall) :
    ∀ (db : DB) (opId : String), lockCount db opId ≤ 1 →
      lockCount db opId + proceedCount db opId calls ≤ 1 := by
  induction calls with
  | nil =>
    intro db opId h
    simpa [proceedCount] using h
  | cons c rest ih =>
    intro db opId h
    cases c with
    | complete oid res success now =>
      have hc := lockCount_completeOperation db oid res success now opId
      have hih := ih (completeOperation db oid res success now) opId
        (by rw [hc]; exact h)
      have hpc : proceedCount db opId (OpCall.complete oid res success now :: rest) =
          proceedCount (completeOperation db oid res success now) opId rest := by
        simp [proceedCount, applyCall]
      rw [hpc, ← hc]
      exact hih
    | ensure oid ot aid fid now =>
      by_cases heq : oid = opId
      · subst heq
        cases hfind : db.locks.find? (fun x => x.operationId == oid) with
        | none =>
          have hens := ensureIdempotent_fresh db oid ot aid fid now hfind
          have h0 := lockCount_zero_of_find?_none db oid hfind
          have h1 : lockCount (applyCall db (OpCall.ensure oid ot aid fid now)) oid = 1 := by
            simp only [applyCall, hens]
            simp only [lockCount] at h0 ⊢
            simp [List.countP_append, List.countP_cons, h0]
          have hih := ih (applyCall db (OpCall.ensure oid ot aid fid now)) oid
            (by rw [h1])
          rw [h1] at hih
          have hpc : proceedCount db oid (OpCall.ensure oid ot aid fid now :: rest) =
              1 + proceedCount (applyCall db (OpCall.ensure oid ot aid fid now)) oid rest := by
            simp [proceedCount, hens]
          rw [hpc, h0]
          omega
        | some l =>
          have hstep : ∀ hens : ensureIdempotent db oid ot aid fid now =
                .ok (.duplicateInProgress, db) ∨
              ensureIdempotent db oid ot aid fid now =
                .ok (.duplicateCompleted l.result l.completedAt, db) ∨
              ensureIdempotent db oid ot aid fid now =
                .error "UNIQUE constraint failed: operation_locks.operation_id",
              lockCount db oid + proceedCount db oid
                (OpCall.ensure oid ot aid fid now :: rest) ≤ 1 := by
            intro hens
            have hpc : proceedCount db oid (OpCall.ensure oid ot aid fid now :: rest) =
                proceedCount db oid rest := by
              rcases hens with hens | hens | hens <;>
                simp [proceedCount, applyCall, hens]
            rw [hpc]
            exact ih db oid h
          cases hst : l.status with
          | completed =>
            exact hstep (Or.inr (Or.inl
              (ensureIdempotent_completed db oid ot aid fid now l hfind hst)))
          | inProgress =>
            exact hstep (Or.inl
              (ensureIdempotent_inProgress db oid ot aid fid now l hfind hst))
          | pending =>
            exact hstep (Or.inr (Or.inr
              (ensureIdempotent_blocked db oid ot aid fid now l hfind
                (by simp [hst]) (by simp [hst]))))
          | failed =>
            exact hstep (Or.inr (Or.inr
              (ensureIdempotent_blocked db oid ot aid fid now l hfind
                (by simp [hst]) (by simp [hst]))))
      · have hne : (oid == opId) = false := by
          simpa using heq
        have hstep : lockCount (applyCall db (OpCall.ensure oid ot aid fid now)) opId =
            lockCount db opId := by
          cases hfind : db.locks.find? (fun x => x.operationId == oid) with
          | none =>
            have hens := ensureIdempotent_fresh db oid ot aid fid now hfind
            simp [applyCall, hens, lockCount, List.countP_append,
              List.countP_cons, hne]
          | some l =>
            cases hst : l.status with
            | completed =>
              simp [applyCall,
                ensureIdempotent_completed db oid ot aid fid now l hfind hst]
            | inProgress =>
              simp [applyCall,
                ensureIdempotent_inProgress db oid ot aid fid now l hfind hst]
            | pending =>
              simp [applyCall,
                ensureIdempotent_blocked db oid ot aid fid now l hfind
                  (by simp [hst]) (by simp [hst])]
            | failed =>
              simp [applyCall,
                ensureIdempotent_blocked db oid ot aid fid now l hfind
                  (by simp [hst]) (by simp [hst])]
        have hpc : proceedCount db opId (OpCall.ensure oid ot aid fid now :: rest) =
            proceedCount (applyCall db (OpCall.ensure oid ot aid fid now)) opId rest := by
          simp [proceedCount, hne]
        have hih := ih (applyCall db (OpCall.ensure oid ot aid fid now)) opId
          (by rw [hstep]; exact h)
        rw [hpc, ← hstep]
        exact hih

theorem lockCount_applyCall_le (db : DB) (c : OpCall)
    (h : ∀ id, lockCount db id ≤ 1) :
    ∀ id, lockCount (applyCall db c) id ≤ 1 := by
  intro id
  cases c with
  | complete oid res success now =>
    have : applyCall db (OpCall.complete oid res success now) =
        completeOperation db oid res success now := rfl
    rw [this, lockCount_completeOperation]
    exact h id
  | ensure oid ot aid fid now =>
    cases hfind : db.locks.find? (fun x => x.operationId == oid) with
    | none =>
      have hens := ensureIdempotent_fresh db oid ot aid fid now hfind
      by_cases heq : oid = id
      · subst heq
        have h0 := lockCount_zero_of_find?_none db oid hfind
        simp only [applyCall, hens]
        simp only [lockCount] at h0 ⊢
        simp [List.countP_append, List.countP_cons, h0]
      · have hne : (oid == id) = false := by simpa using heq
        have := h id
        simp only [lockCount] at this ⊢
        simp [applyCall, hens, List.countP_append, List.countP_cons, hne, this]
    | some l =>
      cases hst : l.status with
      | completed =>
        simpa [applyCall,
          ensureIdempotent_completed db oid ot aid fid now l hfind hst]
          using h id
      | inProgress =>
        simpa [applyCall,
          ensureIdempotent_inProgress db oid ot aid fid now l hfind hst]
          using h id
      | pending =>
        simpa [applyCall,
          ensureIdempotent_blocked db oid ot aid fid now l hfind
            (by simp [hst]) (by simp [hst])]
          using h id
      | failed =>
        simpa [applyCall,
          ensureIdempotent_blocked db oid ot aid fid now l hfind
            (by simp [hst]) (by simp [hst])]
          using h id

theorem lockCount_runCalls_le (calls : List OpCall) :
    ∀ db : DB, (∀ id, lockCount db id ≤ 1) →
      ∀ id, lockCount (runCalls db calls) id ≤ 1 := by
  induction calls with
  | nil =>
    intro db h id
    simpa [runCalls] using h id
  | cons c rest ih =>
    intro db h id
    simp only [runCalls]
    exact ih (applyCall db c) (lockCount_applyCall_le db c h) id

theorem ensureIdempotent_twice_duplicate
    (db : DB) (oid ot1 aid1 fid1 : String) (now1 : Nat)
    (ot2 aid2 fid2 : String) (now2 : Nat) (r1 : EnsureResult) (db1 : DB)
    (h : ensureIdempotent db oid ot1 aid1 fid1 now1 = .ok (r1, db1)) :
    ∃ r2, ensureIdempotent db1 oid ot2 aid2 fid2 now2 = .ok (r2, db1)
      ∧ r2.isDuplicate = true := by
  cases hfind : db.locks.find? (fun x => x.operationId == oid) with
  | none =>
    have hens := ensureIdempotent_fresh db oid ot1 aid1 fid1 now1 hfind
    rw [hens] at h
    injection h with hp
    injection hp with hr hdb
    subst hdb
    have hfind2 : ({ db with locks := db.locks ++
        [{ id := fid1, operationId := oid, operationType := ot1,
           status := .inProgress, expiresAt := now1 + 1 * 3600,
           actorId := aid1 }] } : DB).locks.find?
        (fun x => x.operationId == oid) =
        some { id := fid1, operationId := oid, operationType := ot1,
               status := .inProgress, expiresAt := now1 + 1 * 3600,
               actorId := aid1 } := by
      show (db.locks ++ [_]).find? _ = _
      rw [find?_append_singleton_of_none hfind]
      simp
    exact ⟨.duplicateInProgress,
      ensureIdempotent_inProgress _ oid ot2 aid2 fid2 now2 _ hfind2 rfl, rfl⟩
  | some l =>
    cases hst : l.status with
    | completed =>
      have hens := ensureIdempotent_completed db oid ot1 aid1 fid1 now1 l hfind hst
      rw [hens] at h
      injection h with hp
      injection hp with hr hdb
      subst hdb
      exact ⟨.duplicateCompleted l.result l.completedAt,
        ensureIdempotent_completed db oid ot2 aid2 fid2 now2 l hfind hst, rfl⟩
    | inProgress =>
      have hens := ensureIdempotent_inProgress db oid ot1 aid1 fid1 now1 l hfind hst
      rw [hens] at h
      injection h with hp
      injection hp with hr hdb
      subst hdb
      exact ⟨.duplicateInProgress,
        ensureIdempotent_inProgress db oid ot2 aid2 fid2 now2 l hfind hst, rfl⟩
    | pending =>
      have hens := ensureIdempotent_blocked db oid ot1 aid1 fid1 now1 l hfind
        (by simp [hst]) (by simp [hst])
      rw [hens] at h
      exact absurd h (by simp)
    | failed =>
      have hens := ensureIdempotent_blocked db oid ot1 aid1 fid1 now1 l hfind
        (by simp [hst]) (by simp [hst])
      rw [hens] at h
      exact absurd h (by simp)

/-- C1: over every sequence of `ensure_idempotent`/`complete_operation` calls
from the empty database, at most one `OperationLock` row exists per
`operation_id` (the UNIQUE constraint is never circumvented), and at most one
proceed signal (`is_duplicate=False`) is ever handed out per `operation_id`;
moreover whenever an `ensure_idempotent` call returns (without raising), a
second `ensure_idempotent` call for the same `operation_id` before any
`complete_operation` returns a duplicate signal and leaves the database
unchanged. -/
theorem operationLock_unique_single_proceed :
    (∀ (calls : List OpCall) (opId : String),
        lockCount (runCalls emptyDB calls) opId ≤ 1)
    ∧ (∀ (calls : List OpCall) (opId : String),
        proceedCount emptyDB opId calls ≤ 1)
    ∧ (∀ (db : DB) (oid ot1 aid1 fid1 : String) (now1 : Nat)
        (ot2 aid2 fid2 : String) (now2 : Nat) (r1 : EnsureResult) (db1 : DB),
        ensureIdempotent db oid ot1 aid1 fid1 now1 = .ok (r1, db1) →
        ∃ r2, ensureIdempotent db1 oid ot2 aid2 fid2 now2 = .ok (r2, db1)
          ∧ r2.isDuplicate = true) := by
  refine ⟨?_, ?_, ?_⟩
  · intro calls opId
    exact lockCount_runCalls_le calls emptyDB
      (fun id => by simp [lockCount, emptyDB]) opId
  · intro calls opId
    have h := lockCount_proceedCount_invariant calls emptyDB opId
      (by simp [lockCount, emptyDB])
    simpa [lockCount, emptyDB] using h
  · intro db oid ot1 aid1 fid1 now1 ot2 aid2 fid2 now2 r1 db1 h
    exact ensureIdempotent_twice_duplicate db oid ot1 aid1 fid1 now1
      ot2 aid2 fid2 now2 r1 db1 h

/-- Witness for the hypotheses of `operationLock_unique_single_proceed`: the
first `ensure_idempotent` on the empty database proceeds, and the second call
for the same operation id reports a duplicate. -/
theorem operationLock_unique_single_proceed_witness :
    ∃ r2, ensureIdempotent
        { users := [], auditLogs := [], approvals := [], states := [],
          locks := [{ id := "l1", operationId := "op1", operationType := "t",
                      status := .inProgress, result := none, expiresAt := 3600,
                      completedAt := none, actorId := "a" }] }
        "op1" "t" "a" "l2" 1 =
        .ok (r2,
          { users := [], auditLogs := [], approvals := [], states := [],
            locks := [{ id := "l1", operationId := "op1", operationType := "t",
                        status := .inProgress, result := none, expiresAt := 3600,
                        completedAt := none, actorId := "a" }] })
      ∧ r2.isDuplicate = true :=
  operationLock_unique_single_proceed.2.2 emptyDB "op1" "t" "a" "l1" 0
    "t" "a" "l2" 1 (.proceed "l1" "op1")
    { users := [], auditLogs := [], approvals := [], states := [],
      locks := [{ id := "l1", operationId := "op1", operationType := "t",
                  status := .inProgress, result := none, expiresAt := 3600,
                  completedAt := none, actorId := "a" }] }
    (by rfl)

end VirtualManager
